import Mathlib

/-!
Formal model of the solar-monitor anomaly-detection engine
(src/monitor.js, class SolarMonitor).

The engine polls a telemetry source for `(power, todayEnergy)` samples,
tracks stagnation of the cumulative daily energy value, and routes alert
messages through a cooldown gate.  Timestamps are modelled as integer
milliseconds (JS `Date.now()`), JS numbers as rationals extended with a
NaN element (needed because `Number.parseFloat` of a non-numeric field
yields NaN rather than throwing).
-/

/-- JS number as observed by the monitor: a finite value (modelled as a
rational) or NaN, which `Number.parseFloat` produces on non-numeric input. -/
inductive JsNum where
  | num (q : ℚ)
  | nan
deriving DecidableEq, Repr

/-- JS strict equality on numbers: NaN compares unequal to everything,
including itself. -/
def jsEq : JsNum → JsNum → Bool
  | JsNum.num a, JsNum.num b => decide (a = b)
  | _, _ => false

/-- Configuration constant: `this.checkIntervalMinutes = 10`. -/
def checkIntervalMinutes : ℚ := 10

/-- Configuration constant: `this.hoursToNotifyPower = 1`. -/
def hoursToNotifyPower : ℚ := 1

/-- Configuration constant: `this.hoursToNotifyEnergy = 1`. -/
def hoursToNotifyEnergy : ℚ := 1

/-- Configuration constant: `this.alertCooldownHours = 4`. -/
def alertCooldownHours : ℚ := 4

/-- The readings-threshold formula of the constructor, as a function of the
two configuration fields it reads: `(hours * 60) / checkIntervalMinutes`.
Plain division, no rounding, exactly as in the source. -/
def requiredReadingsFor (hours intervalMinutes : ℚ) : ℚ :=
  hours * 60 / intervalMinutes

/-- Field `this.requiredZeroReadings = (this.hoursToNotifyPower * 60) /
this.checkIntervalMinutes`. -/
def requiredZeroReadings : ℚ :=
  requiredReadingsFor hoursToNotifyPower checkIntervalMinutes

/-- Field `this.requiredStagnantReadings = (this.hoursToNotifyEnergy * 60) /
this.checkIntervalMinutes`. -/
def requiredStagnantReadings : ℚ :=
  requiredReadingsFor hoursToNotifyEnergy checkIntervalMinutes

/-- Mutable state of a `SolarMonitor` instance: the counters and flags set in
the constructor and mutated by `checkSystem` and `sendAlert`. -/
structure MonitorState where
  zeroReadingsCount : ℕ
  lastAlert : Option ℤ
  lastTodayEnergy : Option JsNum
  lastTodayEnergyUpdate : Option ℤ
  todayEnergyStagnantCount : ℕ
  energyAlertSent : Bool
deriving DecidableEq, Repr

/-- State as left by the constructor: all counters zero, all optionals null,
no alert open. -/
def initialState : MonitorState :=
  { zeroReadingsCount := 0
    lastAlert := none
    lastTodayEnergy := none
    lastTodayEnergyUpdate := none
    todayEnergyStagnantCount := 0
    energyAlertSent := false }

/-- Method `canSendAlert()`: true when no alert was ever sent, or when the
hours elapsed since the last one reach `alertCooldownHours`. -/
def canSendAlert (s : MonitorState) (now : ℤ) : Bool :=
  match s.lastAlert with
  | none => true
  | some t => decide (((now - t : ℤ) : ℚ) / (1000 * 60 * 60) ≥ alertCooldownHours)

/-- Method `sendAlert(message)`: consults the cooldown gate; when open it
delivers the message and records `lastAlert = Date.now()`, otherwise it
returns without delivering and without touching state.  The boolean reports
whether the message was delivered. -/
def sendAlert (s : MonitorState) (now : ℤ) : Bool × MonitorState :=
  if canSendAlert s now then (true, { s with lastAlert := some now })
  else (false, s)

/-- A telemetry sample as returned by `getCurrentPowerAndEnergy`. -/
structure Sample where
  power : JsNum
  todayEnergy : JsNum
deriving DecidableEq, Repr

/-- A field of the decoded telemetry payload under `realKpi`: a value that
parses as a number, a present but non-numeric value, or an absent field. -/
inductive JsonField where
  | numeric (q : ℚ)
  | nonNumeric
  | missing
deriving DecidableEq, Repr

/-- JS `Number.parseFloat` on a payload field: NaN on non-numeric or absent
input, never an exception. -/
def jsParseFloat : JsonField → JsNum
  | JsonField.numeric q => JsNum.num q
  | JsonField.nonNumeric => JsNum.nan
  | JsonField.missing => JsNum.nan

/-- Shape of the vendor API response relevant to `getCurrentPowerAndEnergy`:
the envelope success flag, whether the entity-decoded data string parses as
JSON, whether the parsed object has a `realKpi` object, and the two fields
read from it. -/
structure ApiResponse where
  success : Bool
  dataParses : Bool
  hasRealKpi : Bool
  realTimePower : JsonField
  dailyEnergy : JsonField
deriving DecidableEq, Repr

/-- Method `getCurrentPowerAndEnergy()`: `success=false` throws, a data
string that fails `JSON.parse` throws, reading a field of a missing
`realKpi` throws — all caught and turned into `null` (after a best-effort
error notification).  Otherwise the two fields go through
`Number.parseFloat` and a sample is returned, NaN included. -/
def getCurrentPowerAndEnergy (r : ApiResponse) : Option Sample :=
  if !r.success then none
  else if !r.dataParses then none
  else if !r.hasRealKpi then none
  else some { power := jsParseFloat r.realTimePower
              todayEnergy := jsParseFloat r.dailyEnergy }

/-- Observable outbound messages of one `checkSystem` cycle.  The fetch-error
notice and the recovery message go straight to `sendTelegramMessage`; the
energy alert goes through `sendAlert`, whose gate decision is recorded in
`delivered`.  `powerAlert` exists to state properties of the power-loss
tracker: the source has that tracker commented out, so `checkSystem` never
emits it. -/
inductive Event where
  | fetchErrorMsg
  | energyAlert (delivered : Bool)
  | powerAlert (delivered : Bool)
  | recoveryMsg
deriving DecidableEq, Repr

/-- Predicate picking energy-alert attempts out of an event list. -/
def isEnergyAlert : Event → Bool
  | Event.energyAlert _ => true
  | _ => false

/-- Predicate picking power-alert attempts out of an event list. -/
def isPowerAlert : Event → Bool
  | Event.powerAlert _ => true
  | _ => false

/-- Predicate picking energy alerts that passed the cooldown gate. -/
def isDeliveredEnergyAlert : Event → Bool
  | Event.energyAlert true => true
  | _ => false

/-- Method `checkSystem()`, as a function of the current state, the daylight
window check (`isSunUp()`), the fetch result and the current time.  Returns
the new state and the outbound messages of the cycle.
If the window is closed every tracker field is reset.  A failed fetch
(`data = none`) emits one error notice and leaves state untouched.
Otherwise the daily-energy stagnation logic runs: first observation records
the value, an unchanged value increments the stagnant counter and fires a
gated alert the first time the counter reaches `requiredStagnantReadings`,
and a changed value emits a recovery message when an alert was open, then
re-baselines.  The power-loss block of the source is commented out and
therefore absent. -/
def checkSystem (s : MonitorState) (sunUp : Bool) (data : Option Sample)
    (now : ℤ) : MonitorState × List Event :=
  if !sunUp then
    ({ s with zeroReadingsCount := 0
              todayEnergyStagnantCount := 0
              lastTodayEnergy := none
              lastTodayEnergyUpdate := none
              energyAlertSent := false }, [])
  else
    match data with
    | none => (s, [Event.fetchErrorMsg])
    | some d =>
      match s.lastTodayEnergy with
      | none =>
        ({ s with lastTodayEnergy := some d.todayEnergy
                  lastTodayEnergyUpdate := some now
                  todayEnergyStagnantCount := 0 }, [])
      | some lastE =>
        if jsEq d.todayEnergy lastE then
          let s1 := { s with
            todayEnergyStagnantCount := s.todayEnergyStagnantCount + 1 }
          if (s1.todayEnergyStagnantCount : ℚ) ≥ requiredStagnantReadings
              ∧ s1.energyAlertSent = false then
            let p := sendAlert s1 now
            ({ p.2 with energyAlertSent := true }, [Event.energyAlert p.1])
          else (s1, [])
        else
          if s.energyAlertSent then
            ({ s with energyAlertSent := false
                      lastTodayEnergy := some d.todayEnergy
                      lastTodayEnergyUpdate := some now
                      todayEnergyStagnantCount := 0 }, [Event.recoveryMsg])
          else
            ({ s with lastTodayEnergy := some d.todayEnergy
                      lastTodayEnergyUpdate := some now
                      todayEnergyStagnantCount := 0 }, [])

/-- Run of consecutive cycles, each given as (window open?, fetch result,
time); returns the final state and the per-cycle event lists. -/
def runCycles (s : MonitorState) :
    List (Bool × Option Sample × ℤ) → MonitorState × List (List Event)
  | [] => (s, [])
  | (u, d, t) :: rest =>
    let p := checkSystem s u d t
    let q := runCycles p.1 rest
    (q.1, p.2 :: q.2)

/-- Run of consecutive open-window cycles all observing the same sample, at
the given times. -/
def runOpen (s : MonitorState) (d : Sample) :
    List ℤ → MonitorState × List (List Event)
  | [] => (s, [])
  | t :: ts =>
    let p := checkSystem s true (some d) t
    let q := runOpen p.1 d ts
    (q.1, p.2 :: q.2)

/-! ### Step lemmas for `checkSystem` -/

lemma requiredStagnantReadings_eq_six : requiredStagnantReadings = 6 := by
  norm_num [requiredStagnantReadings, requiredReadingsFor, hoursToNotifyEnergy,
    checkIntervalMinutes]

lemma checkSystem_baseline (s : MonitorState) (d : Sample) (now : ℤ)
    (h : s.lastTodayEnergy = none) :
    checkSystem s true (some d) now =
      ({ s with lastTodayEnergy := some d.todayEnergy
                lastTodayEnergyUpdate := some now
                todayEnergyStagnantCount := 0 }, []) := by
  simp [checkSystem, h]


lemma checkSystem_stagnant_low (s : MonitorState) (v : JsNum) (d : Sample)
    (now : ℤ) (hlast : s.lastTodayEnergy = some v)
    (heq : jsEq d.todayEnergy v = true)
    (hc : s.todayEnergyStagnantCount + 1 < 6) :
    checkSystem s true (some d) now =
      ({ s with todayEnergyStagnantCount := s.todayEnergyStagnantCount + 1 },
       []) := by
  obtain ⟨z, la, lte, ltu, c, b⟩ := s
  simp only at hlast hc
  subst hlast
  have hq : ¬ (requiredStagnantReadings ≤ (c : ℚ) + 1) := by
    rw [requiredStagnantReadings_eq_six]
    have h1 : (c : ℚ) + 1 < 6 := by exact_mod_cast hc
    linarith
  simp [checkSystem, heq, hq]

lemma checkSystem_stagnant_sent (s : MonitorState) (v : JsNum) (d : Sample)
    (now : ℤ) (hlast : s.lastTodayEnergy = some v)
    (heq : jsEq d.todayEnergy v = true)
    (hsent : s.energyAlertSent = true) :
    checkSystem s true (some d) now =
      ({ s with todayEnergyStagnantCount := s.todayEnergyStagnantCount + 1 },
       []) := by
  obtain ⟨z, la, lte, ltu, c, b⟩ := s
  simp only at hlast hsent
  subst hlast
  subst hsent
  simp [checkSystem, heq]

lemma checkSystem_fire (s : MonitorState) (v : JsNum) (d : Sample) (now : ℤ)
    (hlast : s.lastTodayEnergy = some v) (heq : jsEq d.todayEnergy v = true)
    (hsent : s.energyAlertSent = false)
    (hc : 6 ≤ s.todayEnergyStagnantCount + 1) :
    checkSystem s true (some d) now =
      (if canSendAlert s now
       then ({ s with todayEnergyStagnantCount := s.todayEnergyStagnantCount + 1
                      energyAlertSent := true
                      lastAlert := some now }, [Event.energyAlert true])
       else ({ s with todayEnergyStagnantCount := s.todayEnergyStagnantCount + 1
                      energyAlertSent := true }, [Event.energyAlert false])) := by
  obtain ⟨z, la, lte, ltu, c, b⟩ := s
  simp only at hlast hsent hc
  subst hlast
  subst hsent
  have hq : requiredStagnantReadings ≤ (c : ℚ) + 1 := by
    rw [requiredStagnantReadings_eq_six]
    have h1 : (6 : ℚ) ≤ (c : ℚ) + 1 := by exact_mod_cast hc
    linarith
  cases la with
  | none => simp [checkSystem, heq, hq, sendAlert, canSendAlert]
  | some t =>
    by_cases hca : alertCooldownHours ≤ ((now : ℚ) - (t : ℚ)) / (1000 * 60 * 60)
    · simp [checkSystem, heq, hq, sendAlert, canSendAlert, hca]
    · simp [checkSystem, heq, hq, sendAlert, canSendAlert, hca]

lemma checkSystem_change (s : MonitorState) (v : JsNum) (d : Sample) (now : ℤ)
    (hlast : s.lastTodayEnergy = some v)
    (hne : jsEq d.todayEnergy v = false) :
    checkSystem s true (some d) now =
      ({ s with energyAlertSent := false
                lastTodayEnergy := some d.todayEnergy
                lastTodayEnergyUpdate := some now
                todayEnergyStagnantCount := 0 },
       if s.energyAlertSent then [Event.recoveryMsg] else []) := by
  obtain ⟨z, la, lte, ltu, c, b⟩ := s
  simp only at hlast
  subst hlast
  cases b <;> simp [checkSystem, hne]

/-! ### Run lemmas -/

lemma runOpen_sent (d : Sample) (v : JsNum) (heq : jsEq d.todayEnergy v = true) :
    ∀ (ts : List ℤ) (s : MonitorState), s.lastTodayEnergy = some v →
      s.energyAlertSent = true →
      (runOpen s d ts).2 = List.replicate ts.length [] ∧
      (runOpen s d ts).1.energyAlertSent = true := by
  intro ts
  induction ts with
  | nil => intro s _ hsent; simpa [runOpen] using hsent
  | cons t ts ih =>
    intro s hlast hsent
    have hstep := checkSystem_stagnant_sent s v d t hlast heq hsent
    have h2 := ih { s with todayEnergyStagnantCount := s.todayEnergyStagnantCount + 1 }
      (by simpa using hlast) (by simpa using hsent)
    simp only [runOpen, hstep]
    exact ⟨by simp [List.replicate_succ, h2.1], h2.2⟩

lemma runOpen_counts (d : Sample) (v : JsNum) (heq : jsEq d.todayEnergy v = true) :
    ∀ (ts : List ℤ) (s : MonitorState), s.lastTodayEnergy = some v →
      s.energyAlertSent = false → s.todayEnergyStagnantCount ≤ 5 →
      (runOpen s d ts).2.map (fun evs => (evs.filter isEnergyAlert).length) =
        (List.range ts.length).map
          (fun j => if s.todayEnergyStagnantCount + j + 1 = 6 then 1 else 0) := by
  intro ts
  induction ts with
  | nil => intro s _ _ _; simp [runOpen]
  | cons t ts ih =>
    intro s hlast hsent hc5
    by_cases h5 : s.todayEnergyStagnantCount = 5
    · have hstep := checkSystem_fire s v d t hlast heq hsent (by omega)
      have hzero : ∀ j : ℕ,
          (if s.todayEnergyStagnantCount + (j + 1) + 1 = 6 then (1 : ℕ) else 0)
            = 0 := by
        intro j; rw [if_neg]; omega
      cases hca : canSendAlert s t
      · rw [hca] at hstep
        simp only [Bool.false_eq_true, if_false] at hstep
        have htail := (runOpen_sent d v heq ts
          { s with todayEnergyStagnantCount := s.todayEnergyStagnantCount + 1
                   energyAlertSent := true }
          (by simpa using hlast) (by simp)).1
        simp only [runOpen, hstep, htail]
        simp [List.range_succ_eq_map, List.map_map, List.map_replicate,
          isEnergyAlert, h5, Function.comp_def, hzero]
      · rw [hca] at hstep
        simp only [if_true] at hstep
        have htail := (runOpen_sent d v heq ts
          { s with todayEnergyStagnantCount := s.todayEnergyStagnantCount + 1
                   energyAlertSent := true
                   lastAlert := some t }
          (by simpa using hlast) (by simp)).1
        simp only [runOpen, hstep, htail]
        simp [List.range_succ_eq_map, List.map_map, List.map_replicate,
          isEnergyAlert, h5, Function.comp_def, hzero]
    · have hstep := checkSystem_stagnant_low s v d t hlast heq (by omega)
      have htail := ih
        { s with todayEnergyStagnantCount := s.todayEnergyStagnantCount + 1 }
        (by simpa using hlast) (by simpa using hsent) (by simp; omega)
      simp only at htail
      simp only [runOpen, hstep, List.map_cons, List.length_cons,
        List.range_succ_eq_map, List.map_map]
      congr 1
      · simp only [List.filter_nil, List.length_nil]
        rw [if_neg (by omega)]
      · rw [htail]
        apply List.map_congr_left
        intro j hj
        simp only [Function.comp_def]
        exact if_congr (by omega) rfl rfl

/-! ### Cooldown gate lemmas -/

lemma canSendAlert_iff (s : MonitorState) (t now : ℤ)
    (h : s.lastAlert = some t) :
    canSendAlert s now = true ↔ 14400000 ≤ now - t := by
  simp only [canSendAlert, h, decide_eq_true_eq, ge_iff_le]
  rw [le_div_iff₀ (by norm_num : (0 : ℚ) < 1000 * 60 * 60),
    show alertCooldownHours * (1000 * 60 * 60) = (14400000 : ℚ) by
      norm_num [alertCooldownHours]]
  constructor <;> intro h2 <;> exact_mod_cast h2

lemma canSendAlert_none (s : MonitorState) (now : ℤ)
    (h : s.lastAlert = none) : canSendAlert s now = true := by
  simp [canSendAlert, h]

lemma sendAlert_fst (s : MonitorState) (now : ℤ) :
    (sendAlert s now).1 = canSendAlert s now := by
  by_cases h : canSendAlert s now <;> simp [sendAlert, h]

lemma sendAlert_snd_true (s : MonitorState) (now : ℤ)
    (h : canSendAlert s now = true) :
    (sendAlert s now).2 = { s with lastAlert := some now } := by
  simp [sendAlert, h]

lemma sendAlert_snd_false (s : MonitorState) (now : ℤ)
    (h : canSendAlert s now = false) :
    (sendAlert s now).2 = s := by
  simp [sendAlert, h]

/-! ### Claim theorems -/

/-- C2: the first sample processed after a reset (`lastTodayEnergy` null)
emits no alert and no recovery event, regardless of the observed value; the
cycle only records the value, sets the change timestamp to now, and zeroes
the stagnant-reading counter, leaving every other field untouched. -/
theorem firstSample_emits_nothing (s : MonitorState) (d : Sample) (now : ℤ)
    (h : s.lastTodayEnergy = none) :
    checkSystem s true (some d) now =
      ({ s with lastTodayEnergy := some d.todayEnergy
                lastTodayEnergyUpdate := some now
                todayEnergyStagnantCount := 0 }, []) :=
  checkSystem_baseline s d now h

/-- Witness for C2 at the constructor state and a NaN-valued sample. -/
theorem firstSample_emits_nothing_witness :
    checkSystem initialState true
        (some { power := JsNum.nan, todayEnergy := JsNum.nan }) 0 =
      ({ initialState with lastTodayEnergy := some JsNum.nan
                           lastTodayEnergyUpdate := some 0
                           todayEnergyStagnantCount := 0 }, []) :=
  firstSample_emits_nothing initialState
    { power := JsNum.nan, todayEnergy := JsNum.nan } 0 rfl

/-- C3: a sample whose energy value differs from `lastTodayEnergy` emits
exactly one recovery event when an alert is open and none otherwise, and in
both cases resets the tracker: alert flag cleared, counter zeroed, value and
change timestamp updated to the new observation. -/
theorem valueChange_recovery_and_reset (s : MonitorState) (v : JsNum)
    (d : Sample) (now : ℤ) (hlast : s.lastTodayEnergy = some v)
    (hne : jsEq d.todayEnergy v = false) :
    checkSystem s true (some d) now =
      ({ s with energyAlertSent := false
                lastTodayEnergy := some d.todayEnergy
                lastTodayEnergyUpdate := some now
                todayEnergyStagnantCount := 0 },
       if s.energyAlertSent then [Event.recoveryMsg] else []) :=
  checkSystem_change s v d now hlast hne

/-- Witness for C3: with an open alert, energy 5 replaced by 5.3 emits one
recovery message and resets the tracker. -/
theorem valueChange_recovery_and_reset_witness :
    checkSystem
        { initialState with lastTodayEnergy := some (JsNum.num 5)
                            lastTodayEnergyUpdate := some 0
                            todayEnergyStagnantCount := 6
                            energyAlertSent := true }
        true (some { power := JsNum.num 2, todayEnergy := JsNum.num (53/10) })
        70 =
      ({ initialState with lastTodayEnergy := some (JsNum.num (53/10))
                           lastTodayEnergyUpdate := some 70
                           todayEnergyStagnantCount := 0
                           energyAlertSent := false },
       [Event.recoveryMsg]) := by
  have h := valueChange_recovery_and_reset
    { initialState with lastTodayEnergy := some (JsNum.num 5)
                        lastTodayEnergyUpdate := some 0
                        todayEnergyStagnantCount := 6
                        energyAlertSent := true }
    (JsNum.num 5) { power := JsNum.num 2, todayEnergy := JsNum.num (53/10) }
    70 rfl (by simp [jsEq, show ((53 : ℚ)/10) ≠ 5 from by norm_num])
  simpa using h

/-- C7: a cycle during an open daylight window whose fetch failed emits
exactly one best-effort error notification and returns with the state —
every tracker field included — identical to what it was before the cycle. -/
theorem fetchFailure_preserves_state (s : MonitorState) (now : ℤ) :
    checkSystem s true none now = (s, [Event.fetchErrorMsg]) := by
  simp [checkSystem]

/-- C1: over a stagnation episode — consecutive open-window samples all equal
to the recorded value, starting right after that value was recorded
(counter 0, no alert open) — exactly one alert event is emitted, on the
sample where the stagnant-reading count first reaches
`requiredStagnantReadings` (= 6); every further identical sample, the alert
flag then being set, emits no additional alert. -/
theorem energyAlert_once_per_episode (s : MonitorState) (v : JsNum)
    (d : Sample) (ts : List ℤ) (hlast : s.lastTodayEnergy = some v)
    (hcount : s.todayEnergyStagnantCount = 0)
    (hsent : s.energyAlertSent = false)
    (heq : jsEq d.todayEnergy v = true) :
    requiredStagnantReadings = 6 ∧
    (runOpen s d ts).2.map (fun evs => (evs.filter isEnergyAlert).length) =
      (List.range ts.length).map (fun j => if j + 1 = 6 then 1 else 0) := by
  refine ⟨requiredStagnantReadings_eq_six, ?_⟩
  have h := runOpen_counts d v heq ts s hlast hsent (by omega)
  rw [hcount] at h
  simpa using h

/-- Witness for C1: seven identical samples after a baseline observation of
energy 5 produce one alert on the sixth and no other. -/
theorem energyAlert_once_per_episode_witness :
    requiredStagnantReadings = 6 ∧
    (runOpen
        { initialState with lastTodayEnergy := some (JsNum.num 5)
                            lastTodayEnergyUpdate := some 0 }
        { power := JsNum.num 2, todayEnergy := JsNum.num 5 }
        [10, 20, 30, 40, 50, 60, 70]).2.map
        (fun evs => (evs.filter isEnergyAlert).length) =
      (List.range 7).map (fun j => if j + 1 = 6 then 1 else 0) :=
  energyAlert_once_per_episode
    { initialState with lastTodayEnergy := some (JsNum.num 5)
                        lastTodayEnergyUpdate := some 0 }
    (JsNum.num 5) { power := JsNum.num 2, todayEnergy := JsNum.num 5 }
    [10, 20, 30, 40, 50, 60, 70] rfl rfl rfl (by simp [jsEq])

/-- C4: the cooldown gate.  An alert attempt is delivered iff no alert was
ever delivered or at least the cooldown (4 h = 14400000 ms) has elapsed
since the last one; a delivered alert records the send time, a suppressed
one leaves the record untouched; from a fresh gate, two attempts within the
cooldown deliver exactly the first, while attempts spaced by at least the
cooldown both deliver. -/
theorem alertGate_cooldown (s s2 : MonitorState) (now t1 t2 : ℤ) :
    ((sendAlert s now).1 = true ↔
      s.lastAlert = none ∨ ∃ t, s.lastAlert = some t ∧ 14400000 ≤ now - t) ∧
    ((sendAlert s now).1 = true →
      (sendAlert s now).2.lastAlert = some now) ∧
    ((sendAlert s now).1 = false →
      (sendAlert s now).2.lastAlert = s.lastAlert) ∧
    (s2.lastAlert = none → t2 - t1 < 14400000 →
      (sendAlert s2 t1).1 = true ∧
      (sendAlert (sendAlert s2 t1).2 t2).1 = false) ∧
    (s2.lastAlert = none → 14400000 ≤ t2 - t1 →
      (sendAlert s2 t1).1 = true ∧
      (sendAlert (sendAlert s2 t1).2 t2).1 = true) := by
  have hfst := sendAlert_fst s now
  refine ⟨?_, ?_, ?_, ?_, ?_⟩
  · rw [hfst]
    cases hla : s.lastAlert with
    | none => simp [canSendAlert_none s now hla]
    | some t =>
      rw [canSendAlert_iff s t now hla]
      constructor
      · intro h; exact Or.inr ⟨t, rfl, h⟩
      · rintro (h | ⟨t3, ht3, h⟩)
        · exact Option.noConfusion h
        · cases ht3
          exact h
  · intro h
    rw [hfst] at h
    rw [sendAlert_snd_true s now h]
  · intro h
    rw [hfst] at h
    rw [sendAlert_snd_false s now (by simpa using h)]
  · intro hnone hlt
    have h1 : canSendAlert s2 t1 = true := canSendAlert_none s2 t1 hnone
    refine ⟨by rw [sendAlert_fst]; exact h1, ?_⟩
    rw [sendAlert_fst, sendAlert_snd_true s2 t1 h1, Bool.eq_false_iff]
    rw [Ne, canSendAlert_iff _ t1 t2 rfl]
    omega
  · intro hnone hge
    have h1 : canSendAlert s2 t1 = true := canSendAlert_none s2 t1 hnone
    refine ⟨by rw [sendAlert_fst]; exact h1, ?_⟩
    rw [sendAlert_fst, sendAlert_snd_true s2 t1 h1,
      canSendAlert_iff _ t1 t2 rfl]
    exact hge

/-- Witness for C4: concrete gate runs — a fresh gate delivers and records
the send time; a closed gate leaves the record untouched; attempts at 0 and
100 ms deliver exactly the first; attempts at 0 and 14400000 ms both
deliver. -/
theorem alertGate_cooldown_witness :
    (sendAlert initialState 5).1 = true ∧
    (sendAlert initialState 5).2.lastAlert = some 5 ∧
    (sendAlert { initialState with lastAlert := some 0 } 5).2.lastAlert
      = some 0 ∧
    ((sendAlert initialState 0).1 = true ∧
      (sendAlert (sendAlert initialState 0).2 100).1 = false) ∧
    ((sendAlert initialState 0).1 = true ∧
      (sendAlert (sendAlert initialState 0).2 14400000).1 = true) := by
  have h1 := (alertGate_cooldown initialState initialState 5 0 0).1.mpr
    (Or.inl rfl)
  refine ⟨h1, (alertGate_cooldown initialState initialState 5 0 0).2.1 h1,
    ?_, ?_, ?_⟩
  · refine (alertGate_cooldown { initialState with lastAlert := some 0 }
      initialState 5 0 0).2.2.1 ?_
    rw [sendAlert_fst, Bool.eq_false_iff, Ne, canSendAlert_iff _ 0 5 rfl]
    omega
  · exact (alertGate_cooldown initialState initialState 5 0 100).2.2.2.1
      rfl (by omega)
  · exact (alertGate_cooldown initialState initialState 5 0 14400000).2.2.2.2
      rfl (by omega)

/-- C5 counterexample: at a configuration with a non-integer ratio (threshold
1 h, poll interval 25 min) the constructor formula yields the raw quotient
12/5, not the ceiling 3 — the source divides without rounding. -/
theorem requiredReadings_formula_not_ceiling :
    requiredReadingsFor 1 25 ≠ ((⌈(1 * 60 / 25 : ℚ)⌉ : ℤ) : ℚ) := by
  have h2 : (⌈(1 * 60 / 25 : ℚ)⌉ : ℤ) = 3 := by
    rw [Int.ceil_eq_iff]
    norm_num
  rw [h2]
  norm_num [requiredReadingsFor]

/-- C5 amended: the source stores the unrounded quotient — 6 for the shipped
configuration, where the ratio is integral and coincides with its ceiling —
and because the stagnant-reading count is an integer, the firing comparison
`count ≥ requiredStagnantReadings` first holds at the ceiling of the ratio,
so an alert never fires before the configured threshold has elapsed. -/
theorem requiredReadings_fires_at_ceiling :
    requiredStagnantReadings = 6 ∧
    requiredStagnantReadings =
      ((⌈hoursToNotifyEnergy * 60 / checkIntervalMinutes⌉ : ℤ) : ℚ) ∧
    ∀ (h i : ℚ) (c : ℕ), 0 < i →
      ((c : ℚ) ≥ requiredReadingsFor h i ↔ (⌈h * 60 / i⌉ : ℤ) ≤ (c : ℤ)) := by
  refine ⟨requiredStagnantReadings_eq_six, ?_, ?_⟩
  · rw [requiredStagnantReadings_eq_six]
    norm_num [hoursToNotifyEnergy, checkIntervalMinutes]
  · intro h i c _
    rw [ge_iff_le, requiredReadingsFor, Int.ceil_le]
    constructor <;> intro h2 <;> exact_mod_cast h2

/-- Witness for the amended C5 at the non-integer configuration 1 h / 25 min
and count 3. -/
theorem requiredReadings_fires_at_ceiling_witness :
    (3 : ℚ) ≥ requiredReadingsFor 1 25 ↔ (⌈(1 * 60 / 25 : ℚ)⌉ : ℤ) ≤ (3 : ℤ) :=
  requiredReadings_fires_at_ceiling.2.2 1 25 3 (by norm_num)

/-- C6 counterexample: six consecutive zero-power samples during the active
window emit no power-loss alert — in particular none on the 6th cycle — the
power-loss block of the source being commented out. -/
theorem powerLoss_scenario_no_alert :
    ((runCycles initialState
        [(true, some { power := JsNum.num 0, todayEnergy := JsNum.num 0 }, 0),
         (true, some { power := JsNum.num 0, todayEnergy := JsNum.num 1 }, 10),
         (true, some { power := JsNum.num 0, todayEnergy := JsNum.num 2 }, 20),
         (true, some { power := JsNum.num 0, todayEnergy := JsNum.num 3 }, 30),
         (true, some { power := JsNum.num 0, todayEnergy := JsNum.num 4 }, 40),
         (true, some { power := JsNum.num 0, todayEnergy := JsNum.num 5 }, 50)
        ]).2.flatten.filter isPowerAlert) = [] := by
  decide

/-- C6 amended: `requiredZeroReadings` is 6 with the shipped configuration,
but the power-loss tracker is disabled in the source (its logic is commented
out), so no cycle ever emits a power-loss alert, whatever it observes. -/
theorem powerTracker_disabled :
    requiredZeroReadings = 6 ∧
    ∀ (s : MonitorState) (sunUp : Bool) (data : Option Sample) (now : ℤ),
      (checkSystem s sunUp data now).2.filter isPowerAlert = [] := by
  constructor
  · norm_num [requiredZeroReadings, requiredReadingsFor, hoursToNotifyPower,
      checkIntervalMinutes]
  · intro s sunUp data now
    cases sunUp with
    | false => simp [checkSystem]
    | true =>
      cases data with
      | none => simp [checkSystem, isPowerAlert]
      | some d =>
        cases hlast : s.lastTodayEnergy with
        | none => rw [checkSystem_baseline s d now hlast]; rfl
        | some v =>
          cases hjs : jsEq d.todayEnergy v with
          | false =>
            rw [checkSystem_change s v d now hlast hjs]
            split <;> rfl
          | true =>
            cases hsent : s.energyAlertSent with
            | true => rw [checkSystem_stagnant_sent s v d now hlast hjs hsent]; rfl
            | false =>
              by_cases hc : s.todayEnergyStagnantCount + 1 < 6
              · rw [checkSystem_stagnant_low s v d now hlast hjs hc]; rfl
              · rw [checkSystem_fire s v d now hlast hjs hsent (by omega)]
                split <;> rfl

/-- C8 counterexample: a successful, structurally well-formed envelope whose
`realTimePower` is non-numeric yields a sample (with NaN power), not a fetch
error. -/
theorem nonNumericField_yields_sample :
    getCurrentPowerAndEnergy
        { success := true, dataParses := true, hasRealKpi := true
          realTimePower := JsonField.nonNumeric
          dailyEnergy := JsonField.numeric 5 } =
      some { power := JsNum.nan, todayEnergy := JsNum.num 5 } ∧
    getCurrentPowerAndEnergy
        { success := true, dataParses := true, hasRealKpi := true
          realTimePower := JsonField.nonNumeric
          dailyEnergy := JsonField.numeric 5 } ≠ none := by
  exact ⟨rfl, by simp [getCurrentPowerAndEnergy]⟩

/-- C8 amended: a false success flag, an unparseable payload string, or a
missing `realKpi` object each yield a fetch error (null); but once those
checks pass, a non-numeric power or energy field yields a sample whose
corresponding value is NaN rather than a fetch error. -/
theorem fetchError_conditions (r : ApiResponse) :
    (r.success = false → getCurrentPowerAndEnergy r = none) ∧
    (r.dataParses = false → getCurrentPowerAndEnergy r = none) ∧
    (r.hasRealKpi = false → getCurrentPowerAndEnergy r = none) ∧
    (r.success = true → r.dataParses = true → r.hasRealKpi = true →
      getCurrentPowerAndEnergy r =
        some { power := jsParseFloat r.realTimePower
               todayEnergy := jsParseFloat r.dailyEnergy }) ∧
    jsParseFloat JsonField.nonNumeric = JsNum.nan := by
  refine ⟨?_, ?_, ?_, ?_, rfl⟩
  · intro h; simp [getCurrentPowerAndEnergy, h]
  · intro h; simp [getCurrentPowerAndEnergy, h]
  · intro h; simp [getCurrentPowerAndEnergy, h]
  · intro h1 h2 h3; simp [getCurrentPowerAndEnergy, h1, h2, h3]

/-- Witness for the amended C8: a failed envelope yields null; a non-numeric
power field in a well-formed envelope yields a NaN sample. -/
theorem fetchError_conditions_witness :
    getCurrentPowerAndEnergy
        { success := false, dataParses := true, hasRealKpi := true
          realTimePower := JsonField.numeric 1
          dailyEnergy := JsonField.numeric 2 } = none ∧
    getCurrentPowerAndEnergy
        { success := true, dataParses := true, hasRealKpi := true
          realTimePower := JsonField.nonNumeric
          dailyEnergy := JsonField.numeric 7 } =
      some { power := JsNum.nan, todayEnergy := JsNum.num 7 } := by
  constructor
  · exact (fetchError_conditions _).1 rfl
  · exact (fetchError_conditions _).2.2.2.1 rfl rfl rfl

/-- The two spec invariants of the energy tracker: a positive stagnant count
implies a recorded value, and an open alert implies the count has reached
the firing threshold. -/
def EnergyTrackerInvariant (s : MonitorState) : Prop :=
  (0 < s.todayEnergyStagnantCount → s.lastTodayEnergy ≠ none) ∧
  (s.energyAlertSent = true →
    (s.todayEnergyStagnantCount : ℚ) ≥ requiredStagnantReadings)

instance (s : MonitorState) : Decidable (EnergyTrackerInvariant s) := by
  unfold EnergyTrackerInvariant
  infer_instance

/-- C9: both tracker invariants hold in the constructor state and are
preserved by every run of the monitoring cycle, whatever window state and
fetch result it observes. -/
theorem trackerInvariants_preserved :
    EnergyTrackerInvariant initialState ∧
    ∀ (s : MonitorState) (sunUp : Bool) (data : Option Sample) (now : ℤ),
      EnergyTrackerInvariant s →
      EnergyTrackerInvariant (checkSystem s sunUp data now).1 := by
  constructor
  · exact ⟨by simp [initialState], by simp [initialState]⟩
  · intro s sunUp data now hInv
    cases sunUp with
    | false =>
      constructor <;> simp [checkSystem]
    | true =>
      cases data with
      | none =>
        have h : checkSystem s true none now = (s, [Event.fetchErrorMsg]) := by
          simp [checkSystem]
        rw [h]
        exact hInv
      | some d =>
        cases hlast : s.lastTodayEnergy with
        | none =>
          rw [checkSystem_baseline s d now hlast]
          constructor
          · simp
          · intro hsent
            exfalso
            have h2 := hInv.2 (by simpa using hsent)
            rw [requiredStagnantReadings_eq_six] at h2
            have h3 : (6 : ℕ) ≤ s.todayEnergyStagnantCount := by exact_mod_cast h2
            exact hInv.1 (by omega) hlast
        | some v =>
          cases hjs : jsEq d.todayEnergy v with
          | false =>
            rw [checkSystem_change s v d now hlast hjs]
            constructor
            · simp
            · simp
          | true =>
            cases hsent : s.energyAlertSent with
            | true =>
              rw [checkSystem_stagnant_sent s v d now hlast hjs hsent]
              constructor
              · simp [hlast]
              · intro _
                have h2 := hInv.2 hsent
                have h3 : ((s.todayEnergyStagnantCount : ℚ)) ≤
                    ((s.todayEnergyStagnantCount + 1 : ℕ) : ℚ) := by
                  push_cast; linarith
                simpa using le_trans h2 h3
            | false =>
              by_cases hc : s.todayEnergyStagnantCount + 1 < 6
              · rw [checkSystem_stagnant_low s v d now hlast hjs hc]
                constructor
                · simp [hlast]
                · intro hb; simp [hsent] at hb
              · rw [checkSystem_fire s v d now hlast hjs hsent (by omega)]
                have hq : requiredStagnantReadings ≤
                    ((s.todayEnergyStagnantCount + 1 : ℕ) : ℚ) := by
                  rw [requiredStagnantReadings_eq_six]
                  exact_mod_cast (by omega : 6 ≤ s.todayEnergyStagnantCount + 1)
                split <;> exact ⟨by simp [hlast], fun _ => by simpa using hq⟩

/-- Witness for C9: the invariants hold at the constructor state and are
preserved across one concrete fetch-failure cycle. -/
theorem trackerInvariants_preserved_witness :
    EnergyTrackerInvariant (checkSystem initialState true none 0).1 :=
  trackerInvariants_preserved.2 initialState true none 0
    trackerInvariants_preserved.1

lemma runOpen_append (s : MonitorState) (d : Sample) (ts1 ts2 : List ℤ) :
    runOpen s d (ts1 ++ ts2) =
      ((runOpen (runOpen s d ts1).1 d ts2).1,
       (runOpen s d ts1).2 ++ (runOpen (runOpen s d ts1).1 d ts2).2) := by
  induction ts1 generalizing s with
  | nil => simp [runOpen]
  | cons t ts ih => simp [runOpen, ih]

lemma runOpen_prefire (d : Sample) (v : JsNum)
    (heq : jsEq d.todayEnergy v = true) :
    ∀ (ts : List ℤ) (s : MonitorState), s.lastTodayEnergy = some v →
      s.energyAlertSent = false →
      ts.length + s.todayEnergyStagnantCount ≤ 5 →
      (runOpen s d ts).2 = List.replicate ts.length [] ∧
      (runOpen s d ts).1 =
        { s with todayEnergyStagnantCount :=
            s.todayEnergyStagnantCount + ts.length } := by
  intro ts
  induction ts with
  | nil => intro s _ _ _; exact ⟨rfl, rfl⟩
  | cons t ts ih =>
    intro s hlast hsent hlen
    simp only [List.length_cons] at hlen
    have hstep := checkSystem_stagnant_low s v d t hlast heq (by omega)
    have ih2 := ih
      { s with todayEnergyStagnantCount := s.todayEnergyStagnantCount + 1 }
      (by simpa using hlast) (by simpa using hsent) (by simp; omega)
    simp only [runOpen, hstep]
    refine ⟨by simp [List.replicate_succ, ih2.1], ?_⟩
    rw [ih2.2]
    simp only [List.length_cons]
    congr 1
    omega

lemma flatten_replicate_nil {α : Type} (n : ℕ) :
    (List.replicate n ([] : List α)).flatten = [] := by
  induction n with
  | zero => rfl
  | succ n ih => simp [List.replicate_succ, ih]

/-- C10: when the cooldown gate is closed at the moment the stagnation
threshold is crossed (here: the 6th identical sample comes less than the
cooldown after the last delivered alert), the alert is suppressed but the
tracker still sets its alert flag; consequently no alert for that episode is
ever delivered — however many further identical samples follow, at whatever
later times, even past the cooldown. -/
theorem suppressedAlert_never_delivered (s : MonitorState) (v : JsNum)
    (d : Sample) (ta t1 t2 t3 t4 t5 t6 : ℤ) (rest : List ℤ)
    (hlast : s.lastTodayEnergy = some v)
    (hcount : s.todayEnergyStagnantCount = 0)
    (hsent : s.energyAlertSent = false) (hla : s.lastAlert = some ta)
    (heq : jsEq d.todayEnergy v = true) (hgate : t6 - ta < 14400000) :
    ((runOpen s d (t1 :: t2 :: t3 :: t4 :: t5 :: t6 :: rest)).2.flatten.filter
        isDeliveredEnergyAlert = []) ∧
    (runOpen s d (t1 :: t2 :: t3 :: t4 :: t5 :: t6 :: rest)).1.energyAlertSent
      = true := by
  have hsplit : (t1 :: t2 :: t3 :: t4 :: t5 :: t6 :: rest) =
      [t1, t2, t3, t4, t5] ++ (t6 :: rest) := rfl
  have hpre := runOpen_prefire d v heq [t1, t2, t3, t4, t5] s hlast hsent
    (by simp [hcount])
  have hfire := checkSystem_fire
    { s with todayEnergyStagnantCount :=
        s.todayEnergyStagnantCount + [t1, t2, t3, t4, t5].length }
    v d t6 (by simpa using hlast) heq (by simpa using hsent)
    (by simp [hcount])
  have hca : canSendAlert
      { s with todayEnergyStagnantCount :=
          s.todayEnergyStagnantCount + [t1, t2, t3, t4, t5].length }
      t6 = false := by
    rw [Bool.eq_false_iff, Ne, canSendAlert_iff _ ta t6 (by simpa using hla)]
    omega
  rw [hca] at hfire
  simp only [Bool.false_eq_true, if_false] at hfire
  have hrest := runOpen_sent d v heq rest
    { { s with todayEnergyStagnantCount :=
          s.todayEnergyStagnantCount + [t1, t2, t3, t4, t5].length } with
      todayEnergyStagnantCount :=
        ({ s with todayEnergyStagnantCount :=
            s.todayEnergyStagnantCount +
              [t1, t2, t3, t4, t5].length } : MonitorState).todayEnergyStagnantCount
          + 1
      energyAlertSent := true }
    (by simpa using hlast) (by simp)
  rw [hsplit, runOpen_append, hpre.1, hpre.2]
  simp only [runOpen, hfire]
  constructor
  · rw [hrest.1]
    simp [List.flatten_append, flatten_replicate_nil, isDeliveredEnergyAlert]
  · exact hrest.2

/-- Witness for C10: last alert delivered at time 0, six identical samples at
10..60 ms (gate closed on the 6th), then a further identical sample at
14500000 ms, past the cooldown: no alert is ever delivered and the alert
flag is set. -/
theorem suppressedAlert_never_delivered_witness :
    ((runOpen
        { initialState with lastTodayEnergy := some (JsNum.num 5)
                            lastAlert := some 0 }
        { power := JsNum.num 2, todayEnergy := JsNum.num 5 }
        [10, 20, 30, 40, 50, 60, 14500000]).2.flatten.filter
        isDeliveredEnergyAlert = []) ∧
    (runOpen
        { initialState with lastTodayEnergy := some (JsNum.num 5)
                            lastAlert := some 0 }
        { power := JsNum.num 2, todayEnergy := JsNum.num 5 }
        [10, 20, 30, 40, 50, 60, 14500000]).1.energyAlertSent = true :=
  suppressedAlert_never_delivered
    { initialState with lastTodayEnergy := some (JsNum.num 5)
                        lastAlert := some 0 }
    (JsNum.num 5) { power := JsNum.num 2, todayEnergy := JsNum.num 5 }
    0 10 20 30 40 50 60 [14500000]
    rfl rfl rfl rfl (by simp [jsEq]) (by omega)
